import Mathlib

/-!
Shallow embedding of the pop-the-balloon-analytics pipeline.

Stage 1 (`main.py`) drives cursor-based pagination against a remote comment
source, maps each returned item to a flat comment record, and exports the
records.  Stage 2 (`sentiment_analysis.py`) loads the records, scores each
comment with an external sentiment scorer, classifies the compound score with
fixed thresholds, and computes aggregate summary statistics.

Machine floats of the Python source are modelled as rationals; `dict.get`
defaulting is modelled with `Option.getD`; a raised exception is modelled as
`Except.error`.  The external scorer is a parameter `String → Scores`
constrained only by its documented contract.
-/

set_option autoImplicit false

namespace PopBalloon

/-- One collected comment record, as built by the stage-1 fetch loop
(main.py lines 140-145) and persisted to the tabular store. -/
structure RawComment where
  author_name : String
  likes : Nat
  reply_count : Nat
  comment_text : String
deriving DecidableEq

/-- The innermost snippet of a returned item: the fields read through
`snippet.get(...)` in main.py lines 141-144.  Each field is optional,
mirroring a loosely-structured remote record. -/
structure CommentSnippet where
  authorDisplayName : Option String
  likeCount : Option Nat
  textDisplay : Option String
deriving DecidableEq

/-- The `topLevelComment` object of a returned item. -/
structure TopLevelComment where
  snippet : Option CommentSnippet
deriving DecidableEq

/-- The thread-level snippet: holds the top-level comment and the
thread-level `replyCount` field. -/
structure ThreadSnippet where
  topLevelComment : Option TopLevelComment
  replyCount : Option Nat
deriving DecidableEq

/-- One item of a page of results.  main.py indexes
`item['snippet']['topLevelComment']['snippet']` without defaults, so every
level on that path is optional here and a missing level is a lookup error. -/
structure Item where
  snippet : Option ThreadSnippet
deriving DecidableEq

/-- One page returned by the remote source: a batch of items plus an
optional continuation cursor (`nextPageToken`). -/
structure Response where
  items : List Item
  nextPageToken : Option String
deriving DecidableEq

namespace Stage1

/-- The per-item mapping of `fetch_comments` (main.py lines 138-145): the
path `item['snippet']['topLevelComment']['snippet']` is indexed directly and
raises a lookup error when a level is missing; the four leaf fields are read
with `dict.get` defaults. -/
def parseItem (item : Item) : Except String RawComment :=
  match item.snippet with
  | none => Except.error "KeyError: snippet"
  | some threadSnippet =>
    match threadSnippet.topLevelComment with
    | none => Except.error "KeyError: topLevelComment"
    | some top =>
      match top.snippet with
      | none => Except.error "KeyError: snippet"
      | some sn =>
        Except.ok
          { author_name := sn.authorDisplayName.getD ""
            likes := sn.likeCount.getD 0
            reply_count := threadSnippet.replyCount.getD 0
            comment_text := sn.textDisplay.getD "" }

/-- Python truthiness of the page token: the loop breaks on
`if not page_token`, so both a missing token and an empty-string token
terminate pagination. -/
def tokenTruthy : Option String → Bool
  | none => false
  | some s => !(s.isEmpty)

/-- The `for item in response.get('items', [])` body (main.py lines 138-147):
each parsed comment is appended; a lookup error aborts the loop with the
comments appended so far kept (the Python list was already mutated). -/
def runItems : List Item → List RawComment → List RawComment × Bool
  | [], acc => (acc, true)
  | item :: rest, acc =>
    match parseItem item with
    | Except.error _ => (acc, false)
    | Except.ok c => runItems rest (acc ++ [c])

/-- Observable outcome of one run of the `fetch_comments` loop.
`comments` is the value the Python function returns in both the normal and
the exceptional path; `page_count` mirrors the source's counter (one
increment per issued request); `cursors` records the `pageToken` argument of
each issued request in order; `completed` is true when the loop exited via
`break` (no cursor) and false when an exception was caught. -/
structure FetchResult where
  comments : List RawComment
  page_count : Nat
  cursors : List (Option String)
  completed : Bool
deriving DecidableEq

/-- The `while True` pagination loop of `fetch_comments` (main.py lines
124-159).  The simulated source is the list of outcomes of the successive
`request.execute()` calls: the k-th element answers the k-th request, and
`Except.error` models a raised request-level failure.  An exhausted outcome
list also models an unavailable source. -/
def fetchGo : List (Except String Response) → List RawComment → Nat →
    List (Option String) → Option String → FetchResult
  | [], comments, n, curs, tok => ⟨comments, n + 1, curs ++ [tok], false⟩
  | Except.error _ :: _, comments, n, curs, tok =>
    ⟨comments, n + 1, curs ++ [tok], false⟩
  | Except.ok resp :: rest, comments, n, curs, tok =>
    match runItems resp.items comments with
    | (comments2, false) => ⟨comments2, n + 1, curs ++ [tok], false⟩
    | (comments2, true) =>
      if tokenTruthy resp.nextPageToken then
        fetchGo rest comments2 (n + 1) (curs ++ [tok]) resp.nextPageToken
      else ⟨comments2, n + 1, curs ++ [tok], true⟩

/-- `fetch_comments`: the loop is entered with `comments = []`,
`page_token = None`, `page_count = 0`. -/
def fetch_comments (responses : List (Except String Response)) : FetchResult :=
  fetchGo responses [] 0 [] none

/-- The value `fetch_comments` actually returns to its caller: the comment
list alone, in the normal path and in the exceptional path alike
(main.py lines 155 and 159). -/
def fetchReturn (responses : List (Except String Response)) : List RawComment :=
  (fetch_comments responses).comments

/-- `export_to_csv` (main.py lines 161-180): an empty comment list is only
logged and nothing is written; otherwise the write is attempted and a write
failure is logged and re-raised unchanged.  The tabular store is abstracted
as a `write` capability. -/
def export_to_csv (comments : List RawComment)
    (write : List RawComment → Except String Unit) : Except String Unit :=
  if comments.isEmpty then Except.ok () else write comments

/-- Embed a comment record as a structurally complete remote item, used to
build simulated sources. -/
def mkItem (c : RawComment) : Item :=
  ⟨some ⟨some ⟨some ⟨some c.author_name, some c.likes, some c.comment_text⟩⟩,
    some c.reply_count⟩⟩

/-- A simulated fully-available source: batch k is served on request k, every
batch except the last carries the corresponding continuation token, and the
last batch omits the token. -/
def mkResponses : List (List RawComment) → List String → List Response
  | [], _ => []
  | [b], _ => [⟨b.map mkItem, none⟩]
  | b :: _ :: _, [] => [⟨b.map mkItem, none⟩]
  | b :: b2 :: rest, t :: ts => ⟨b.map mkItem, some t⟩ :: mkResponses (b2 :: rest) ts

/-- A simulated run of successful pages that all carry continuation tokens,
used as the prefix before an injected request failure. -/
def mkGoodPages : List (List RawComment) → List String → List (Except String Response)
  | b :: bs, t :: ts => Except.ok ⟨b.map mkItem, some t⟩ :: mkGoodPages bs ts
  | _, _ => []

end Stage1

namespace Stage2

/-- One row loaded from the stage-1 tabular file.  `csv.DictReader` yields
every value as text, including the numeric columns. -/
structure LoadedComment where
  author_name : String
  comment_text : String
  likes : String
  reply_count : String
deriving DecidableEq

/-- The four-score tuple produced by the external sentiment scorer for one
text (`polarity_scores`). -/
structure Scores where
  pos : ℚ
  neg : ℚ
  neu : ℚ
  compound : ℚ
deriving DecidableEq

/-- sentiment_analysis.py line 29. -/
def POSITIVE_THRESHOLD : ℚ := 5 / 100

/-- sentiment_analysis.py line 30. -/
def NEGATIVE_THRESHOLD : ℚ := -5 / 100

/-- `classify_sentiment` (sentiment_analysis.py lines 55-62). -/
def classify_sentiment (compound_score : ℚ) : String :=
  if compound_score > POSITIVE_THRESHOLD then "Positive"
  else if compound_score < NEGATIVE_THRESHOLD then "Negative"
  else "Neutral"

/-- Python `round` to an integer: round half to even. -/
def roundHalfEven (q : ℚ) : ℤ :=
  if q - ⌊q⌋ < 1 / 2 then ⌊q⌋
  else if q - ⌊q⌋ > 1 / 2 then ⌊q⌋ + 1
  else if ⌊q⌋ % 2 = 0 then ⌊q⌋ else ⌊q⌋ + 1

/-- Python `round(q, 4)`. -/
def round4 (q : ℚ) : ℚ := (roundHalfEven (q * 10000) : ℚ) / 10000

/-- One analyzed record (sentiment_analysis.py lines 74-84): the four raw
fields carried over, the four scores rounded to 4 places for storage, and the
label computed from the scorer's unrounded compound. -/
structure AnalyzedComment where
  author_name : String
  comment_text : String
  likes : String
  reply_count : String
  positive_score : ℚ
  negative_score : ℚ
  neutral_score : ℚ
  compound_score : ℚ
  sentiment : String
deriving DecidableEq

/-- The body of the `analyze_comments` loop for one comment
(sentiment_analysis.py lines 71-84), with the scorer passed explicitly. -/
def analyzeOne (sia : String → Scores) (c : LoadedComment) : AnalyzedComment :=
  let scores := sia c.comment_text
  { author_name := c.author_name
    comment_text := c.comment_text
    likes := c.likes
    reply_count := c.reply_count
    positive_score := round4 scores.pos
    negative_score := round4 scores.neg
    neutral_score := round4 scores.neu
    compound_score := round4 scores.compound
    sentiment := classify_sentiment scores.compound }

/-- `analyze_comments` (sentiment_analysis.py lines 64-87): one analyzed
record appended per loaded comment, in order. -/
def analyze_comments (sia : String → Scores) (comments : List LoadedComment) :
    List AnalyzedComment :=
  comments.map (analyzeOne sia)

/-- The numeric value of a decimal digit character. -/
def digitQ (c : Char) : Option ℕ :=
  if '0' ≤ c ∧ c ≤ '9' then some (c.toNat - Char.toNat '0') else none

/-- Left-to-right decimal accumulation over characters, failing on the first
non-digit. -/
def parseDigitsAux : List Char → ℕ → Option ℕ
  | [], n => some n
  | c :: rest, n =>
    match digitQ c with
    | some d => parseDigitsAux rest (10 * n + d)
    | none => none

/-- Python `int(s)` on a loaded text field: an optional minus sign followed
by at least one decimal digit; anything else is a value error. -/
def pyInt (s : String) : Except String ℤ :=
  match s.data with
  | [] => Except.error "ValueError: invalid literal for int"
  | c :: rest =>
    if c = '-' then
      match rest with
      | [] => Except.error "ValueError: invalid literal for int"
      | _ =>
        match parseDigitsAux rest 0 with
        | some n => Except.ok (-(n : ℤ))
        | none => Except.error "ValueError: invalid literal for int"
    else
      match parseDigitsAux (c :: rest) 0 with
      | some n => Except.ok (n : ℤ)
      | none => Except.error "ValueError: invalid literal for int"

/-- The three-key dictionaries of `print_summary` (keys Positive, Negative,
Neutral). -/
structure Tally where
  pos : ℤ
  neg : ℤ
  neu : ℤ
deriving DecidableEq

/-- `dict[key] += v` on a three-key dictionary: a key error for any other
key. -/
def bump (t : Tally) (key : String) (v : ℤ) : Except String Tally :=
  if key = "Positive" then Except.ok ⟨t.pos + v, t.neg, t.neu⟩
  else if key = "Negative" then Except.ok ⟨t.pos, t.neg + v, t.neu⟩
  else if key = "Neutral" then Except.ok ⟨t.pos, t.neg, t.neu + v⟩
  else Except.error "KeyError"

/-- The tally loop of `print_summary` (sentiment_analysis.py lines 129-133):
per comment, the count, like and reply dictionaries are bumped at the
comment's sentiment key, converting the text fields with `int(...)`. -/
def summaryLoop : List AnalyzedComment → Tally → Tally → Tally →
    Except String (Tally × Tally × Tally)
  | [], cnt, lk, rp => Except.ok (cnt, lk, rp)
  | c :: rest, cnt, lk, rp => do
    let cnt2 ← bump cnt c.sentiment 1
    let lv ← pyInt c.likes
    let lk2 ← bump lk c.sentiment lv
    let rv ← pyInt c.reply_count
    let rp2 ← bump rp c.sentiment rv
    summaryLoop rest cnt2 lk2 rp2

/-- `sum(int(g(c)) for c in l)` (sentiment_analysis.py lines 136-137). -/
def sumPyInt (g : AnalyzedComment → String) : List AnalyzedComment → Except String ℤ
  | [] => Except.ok 0
  | c :: rest => do
    let v ← pyInt (g c)
    let s ← sumPyInt g rest
    Except.ok (v + s)

/-- The aggregate statistics computed and printed by `print_summary`
(sentiment_analysis.py lines 135-158). -/
structure SentimentSummary where
  total_comments : Nat
  total_likes : ℤ
  total_replies : ℤ
  avg_compound : ℚ
  countPos : ℤ
  countNeg : ℤ
  countNeu : ℤ
  pctPos : ℚ
  pctNeg : ℚ
  pctNeu : ℚ
  avgLikesPos : ℚ
  avgLikesNeg : ℚ
  avgLikesNeu : ℚ
  avgRepliesPos : ℚ
  avgRepliesNeg : ℚ
  avgRepliesNeu : ℚ
deriving DecidableEq

/-- `(count / total_comments * 100) if total_comments > 0 else 0`
(sentiment_analysis.py line 153). -/
def pct (count : ℤ) (total : Nat) : ℚ :=
  if 0 < total then (count : ℚ) / (total : ℚ) * 100 else 0

/-- `s / count if count > 0 else 0` (sentiment_analysis.py lines 154-155). -/
def avgBy (s : ℤ) (count : ℤ) : ℚ :=
  if 0 < count then (s : ℚ) / (count : ℚ) else 0

/-- `print_summary` (sentiment_analysis.py lines 118-160): an empty analyzed
set returns early with only a notice and no summary is computed; otherwise
the dictionaries are tallied, the totals and per-category statistics are
computed, and all of it is printed.  `Except.error` models a raised key or
value error. -/
def print_summary (l : List AnalyzedComment) :
    Except String (Option SentimentSummary) :=
  if l.isEmpty then Except.ok none
  else do
    let (cnt, lk, rp) ← summaryLoop l ⟨0, 0, 0⟩ ⟨0, 0, 0⟩ ⟨0, 0, 0⟩
    let totalLikes ← sumPyInt AnalyzedComment.likes l
    let totalReplies ← sumPyInt AnalyzedComment.reply_count l
    let total := l.length
    Except.ok (some
      { total_comments := total
        total_likes := totalLikes
        total_replies := totalReplies
        avg_compound := (l.map AnalyzedComment.compound_score).sum / (total : ℚ)
        countPos := cnt.pos
        countNeg := cnt.neg
        countNeu := cnt.neu
        pctPos := pct cnt.pos total
        pctNeg := pct cnt.neg total
        pctNeu := pct cnt.neu total
        avgLikesPos := avgBy lk.pos cnt.pos
        avgLikesNeg := avgBy lk.neg cnt.neg
        avgLikesNeu := avgBy lk.neu cnt.neu
        avgRepliesPos := avgBy rp.pos cnt.pos
        avgRepliesNeg := avgBy rp.neg cnt.neg
        avgRepliesNeu := avgBy rp.neu cnt.neu })

/-- `export_to_csv` (sentiment_analysis.py lines 89-116): nothing is written
for an empty analyzed set; otherwise the write is attempted and a write
failure is logged and re-raised unchanged. -/
def export_to_csv (analyzed : List AnalyzedComment)
    (write : List AnalyzedComment → Except String Unit) : Except String Unit :=
  if analyzed.isEmpty then Except.ok () else write analyzed

/-- `load_comments` (sentiment_analysis.py lines 39-53): the upstream file is
abstracted as `Option (List LoadedComment)`, where `none` covers both an
absent and an unreadable file (any exception yields `False` and leaves the
comment list empty). -/
def load_comments (input : Option (List LoadedComment)) :
    Bool × List LoadedComment :=
  match input with
  | none => (false, [])
  | some rows => (true, rows)

/-- Observable outcome of one stage-2 run: how many comments were scored,
what the output write received (if it was reached with data), and the summary
result when `print_summary` was invoked. -/
structure RunResult where
  scored : Nat
  written : Option (List AnalyzedComment)
  summary : Option (Option SentimentSummary)
deriving DecidableEq

/-- `run` (sentiment_analysis.py lines 162-173): load, abort on failure
before any scoring, then analyze, export and summarize; a raised write or
summary error propagates. -/
def run (sia : String → Scores) (write : List AnalyzedComment → Except String Unit)
    (input : Option (List LoadedComment)) : Except String RunResult :=
  match load_comments input with
  | (false, _) => Except.ok ⟨0, none, none⟩
  | (true, comments) =>
    let analyzed := analyze_comments sia comments
    match export_to_csv analyzed write with
    | Except.error e => Except.error e
    | Except.ok _ =>
      match print_summary analyzed with
      | Except.error e => Except.error e
      | Except.ok s =>
        Except.ok ⟨analyzed.length,
          if analyzed.isEmpty then none else some analyzed, some s⟩

/-- Specification-side count of analyzed comments carrying a given sentiment
key, used to state what the tally loop computes. -/
def countS (key : String) : List AnalyzedComment → ℤ
  | [] => 0
  | c :: rest => (if c.sentiment = key then 1 else 0) + countS key rest

end Stage2

/-- A concrete comment used in closed instances. -/
def w1 : RawComment := ⟨"Ana", 10, 0, "I love this!"⟩

/-- A second concrete comment used in closed instances. -/
def w2 : RawComment := ⟨"Ben", 2, 1, "This is terrible."⟩

/-- A source that serves one complete page. -/
def cexComplete : List (Except String Response) :=
  [Except.ok ⟨[Stage1.mkItem w1], none⟩]

/-- A source that serves the same page with a continuation token and then
fails on the second request. -/
def cexFailing : List (Except String Response) :=
  [Except.ok ⟨[Stage1.mkItem w1], some "t2"⟩, Except.error "network error"]

/-- A sentiment scorer that is admissible for the documented contract (the
sub-scores are non-negative and sum to 1, the compound lies in [-1, 1]) and
returns a compound with more than four decimal places. -/
def badScorer : String → Stage2.Scores := fun _ => ⟨0, 0, 1, 1251 / 25000⟩

/-- A sentiment scorer whose compound is already a four-decimal value. -/
def goodScorer : String → Stage2.Scores := fun _ => ⟨0, 0, 1, 6 / 10⟩

/-- A neutral scorer used in closed instances. -/
def wSia : String → Stage2.Scores := fun _ => ⟨0, 0, 1, 0⟩

/-- A concrete loaded row used in closed instances. -/
def wLoaded : Stage2.LoadedComment := ⟨"Ana", "great", "10", "0"⟩

/-- A concrete analyzed record used in closed instances. -/
def wAnalyzed : Stage2.AnalyzedComment :=
  ⟨"Ana", "great", "10", "0", 0, 0, 1, 0, "Neutral"⟩

/-- A stage-1 writer that always fails. -/
def failWriter1 : List RawComment → Except String Unit :=
  fun _ => Except.error "disk full"

/-- A stage-2 writer that always fails. -/
def failWriter2 : List Stage2.AnalyzedComment → Except String Unit :=
  fun _ => Except.error "disk full"

/-- A structurally complete item parses to its record, leaf defaults applied
trivially. -/
theorem parseItem_mkItem (c : RawComment) :
    Stage1.parseItem (Stage1.mkItem c) = Except.ok c := rfl

/-- The item loop over a batch of structurally complete items appends the
whole batch and reports no error. -/
theorem runItems_mk (b : List RawComment) (acc : List RawComment) :
    Stage1.runItems (b.map Stage1.mkItem) acc = (acc ++ b, true) := by
  induction b generalizing acc with
  | nil => simp [Stage1.runItems]
  | cons c cb ih => simp [Stage1.runItems, parseItem_mkItem, ih]

/-- A non-empty token is truthy. -/
theorem tokenTruthy_of_ne (t : String) (h : ¬t = "") :
    Stage1.tokenTruthy (some t) = true := by
  have hemp : t.isEmpty = false := by
    rw [Bool.eq_false_iff]
    intro hy
    exact h ((String.isEmpty_iff t).mp hy)
  simp [Stage1.tokenTruthy, hemp]

/-- Running the loop over a simulated complete source: every page is served,
the whole concatenation is accumulated, every issued request carries the
cursor of the previous response, and the loop ends via the break. -/
theorem fetchGo_mkResponses :
    ∀ (batches : List (List RawComment)) (toks : List String),
    toks.length + 1 = batches.length → (∀ t ∈ toks, ¬t = "") →
    ∀ (acc : List RawComment) (n : Nat) (curs : List (Option String))
      (tok : Option String),
    Stage1.fetchGo ((Stage1.mkResponses batches toks).map Except.ok) acc n curs tok =
      ⟨acc ++ batches.flatten, n + batches.length, curs ++ tok :: toks.map some, true⟩ := by
  intro batches
  induction batches with
  | nil => intro toks hlen; simp at hlen
  | cons b bs ih =>
    intro toks hlen htok acc n curs tok
    cases bs with
    | nil =>
      have htoks : toks = [] := List.length_eq_zero.mp (by simpa using hlen)
      subst htoks
      simp [Stage1.mkResponses, Stage1.fetchGo, runItems_mk, Stage1.tokenTruthy]
    | cons b2 rest =>
      cases toks with
      | nil => simp at hlen
      | cons t ts =>
        have hne := htok t (List.mem_cons_self t ts)
        have hts : ∀ x ∈ ts, ¬x = "" := fun x hx => htok x (List.mem_cons_of_mem t hx)
        have hlen2 : ts.length + 1 = (b2 :: rest).length := by
          simpa using hlen
        have hrec := ih ts hlen2 hts (acc ++ b) (n + 1) (curs ++ [tok]) (some t)
        simp only [Stage1.mkResponses, List.map_cons, Stage1.fetchGo, runItems_mk,
          tokenTruthy_of_ne t hne, if_true, hrec]
        simp [List.append_assoc, List.length_cons]
        omega

/-- Running the loop over a good prefix followed by a failing request: the
prefix pages are accumulated, the failing request is issued, and the loop
stops there regardless of what would come after. -/
theorem fetchGo_goodPages_err :
    ∀ (batches : List (List RawComment)) (toks : List String),
    toks.length = batches.length → (∀ t ∈ toks, ¬t = "") →
    ∀ (e : String) (rest : List (Except String Response))
      (acc : List RawComment) (n : Nat) (curs : List (Option String))
      (tok : Option String),
    Stage1.fetchGo (Stage1.mkGoodPages batches toks ++ (Except.error e :: rest))
        acc n curs tok =
      ⟨acc ++ batches.flatten, n + batches.length + 1,
        curs ++ tok :: toks.map some, false⟩ := by
  intro batches
  induction batches with
  | nil =>
    intro toks hlen htok e rest acc n curs tok
    have htoks : toks = [] := List.length_eq_zero.mp hlen
    subst htoks
    simp [Stage1.mkGoodPages, Stage1.fetchGo]
  | cons b bs ih =>
    intro toks hlen htok e rest acc n curs tok
    cases toks with
    | nil => simp at hlen
    | cons t ts =>
      have hne := htok t (List.mem_cons_self t ts)
      have hts : ∀ x ∈ ts, ¬x = "" := fun x hx => htok x (List.mem_cons_of_mem t hx)
      have hlen2 : ts.length = bs.length := by simpa using hlen
      have hrec := ih ts hlen2 hts e rest (acc ++ b) (n + 1) (curs ++ [tok]) (some t)
      simp only [Stage1.mkGoodPages, List.cons_append, Stage1.fetchGo, runItems_mk,
        tokenTruthy_of_ne t hne, if_true, List.append_eq]
      rw [hrec]
      simp [List.append_assoc, List.length_cons]
      omega

/-- Claim C1: for a simulated paginated source returning N batches where
every batch except the last carries a continuation cursor, `fetch_comments`
issues exactly N requests (the first with no cursor, each subsequent one with
the cursor returned by the previous response), terminates exactly when a
response omits the cursor, and returns the concatenation of all batch items
in source order. -/
theorem pagination_completeness (batches : List (List RawComment)) (toks : List String)
    (hlen : toks.length + 1 = batches.length) (htok : ∀ t ∈ toks, ¬t = "") :
    Stage1.fetch_comments ((Stage1.mkResponses batches toks).map Except.ok) =
      ⟨batches.flatten, batches.length, none :: toks.map some, true⟩ := by
  have h := fetchGo_mkResponses batches toks hlen htok [] 0 [] none
  simpa [Stage1.fetch_comments] using h

/-- Witness for C1: a two-batch source with one continuation token yields two
requests with cursors none and "t1", the concatenation of the batches, and a
completed run. -/
theorem pagination_completeness_witness :
    Stage1.fetch_comments ((Stage1.mkResponses [[w1], [w2]] ["t1"]).map Except.ok) =
      ⟨[w1, w2], 2, [none, some "t1"], true⟩ := by
  have h := pagination_completeness [[w1], [w2]] ["t1"] (by decide) (by decide)
  simpa using h

/-- Counterexample to claim C3: the value `fetch_comments` returns to its
caller after a second-page failure is exactly the value a complete one-page
collection returns, so the caller receives no explicit signal that collection
was incomplete; only the internal run outcome differs. -/
theorem partial_failure_cex :
    Stage1.fetchReturn cexFailing = Stage1.fetchReturn cexComplete ∧
    (Stage1.fetch_comments cexFailing).completed = false ∧
    (Stage1.fetch_comments cexComplete).completed = true := by decide

/-- Claim C3 as amended: if the k-th page request fails, the Collector aborts
pagination immediately, issues no further requests, and returns exactly the
items accumulated from the pages before the failure; the failure is only
logged, and the returned list itself carries no incompleteness marker. -/
theorem partial_failure_partial_results (batches : List (List RawComment))
    (toks : List String) (e : String) (rest : List (Except String Response))
    (hlen : toks.length = batches.length) (htok : ∀ t ∈ toks, ¬t = "") :
    Stage1.fetch_comments (Stage1.mkGoodPages batches toks ++ (Except.error e :: rest)) =
      ⟨batches.flatten, batches.length + 1, none :: toks.map some, false⟩ ∧
    Stage1.fetchReturn (Stage1.mkGoodPages batches toks ++ (Except.error e :: rest)) =
      batches.flatten := by
  have h := fetchGo_goodPages_err batches toks hlen htok e rest [] 0 [] none
  constructor
  · simpa [Stage1.fetch_comments] using h
  · simp [Stage1.fetchReturn, Stage1.fetch_comments, h]

/-- Witness for the amended C3: one good page, then a failing request, with
further responses available that are never requested. -/
theorem partial_failure_partial_results_witness :
    Stage1.fetch_comments (Stage1.mkGoodPages [[w1]] ["t1"] ++
        (Except.error "quota" :: [Except.ok ⟨[Stage1.mkItem w2], none⟩])) =
      ⟨[w1], 2, [none, some "t1"], false⟩ ∧
    Stage1.fetchReturn (Stage1.mkGoodPages [[w1]] ["t1"] ++
        (Except.error "quota" :: [Except.ok ⟨[Stage1.mkItem w2], none⟩])) = [w1] := by
  have h := partial_failure_partial_results [[w1]] ["t1"] "quota"
    [Except.ok ⟨[Stage1.mkItem w2], none⟩] (by decide) (by decide)
  simpa using h

/-- Counterexample to claim C7: the per-item mapping is not total: an item
missing the nested snippet object makes it fail with a lookup error instead
of producing a defaulted record. -/
theorem per_item_mapping_cex :
    Stage1.parseItem ⟨none⟩ = Except.error "KeyError: snippet" := rfl

/-- Claim C7 as amended: for every returned item that does contain the nested
thread snippet, top-level comment and comment snippet objects, the per-item
mapping succeeds and extracts the author display name (default empty if
absent), the like count (default 0 if absent), the reply count (default 0 if
absent, taken from the thread-level field), and the plain-text body (default
empty if absent); an item missing a level of the nested path instead fails
with a lookup error, which aborts the page as a request-level failure. -/
theorem per_item_mapping_defaults (a : Option String) (lk : Option Nat)
    (rc : Option Nat) (tx : Option String) :
    Stage1.parseItem ⟨some ⟨some ⟨some ⟨a, lk, tx⟩⟩, rc⟩⟩ =
      Except.ok ⟨a.getD "", lk.getD 0, rc.getD 0, tx.getD ""⟩ := rfl

/-- The Positive branch of the classification rule, as an equivalence. -/
theorem classify_pos_iff (c : ℚ) :
    Stage2.classify_sentiment c = "Positive" ↔ Stage2.POSITIVE_THRESHOLD < c := by
  unfold Stage2.classify_sentiment
  split_ifs with h1 h2
  · simp [h1]
  · exact ⟨fun h => absurd h (by decide), fun h => absurd h h1⟩
  · exact ⟨fun h => absurd h (by decide), fun h => absurd h h1⟩

/-- The Negative branch of the classification rule, as an equivalence. -/
theorem classify_neg_iff (c : ℚ) :
    Stage2.classify_sentiment c = "Negative" ↔ c < Stage2.NEGATIVE_THRESHOLD := by
  unfold Stage2.classify_sentiment
  split_ifs with h1 h2
  · refine ⟨fun h => absurd h (by decide), fun h => ?_⟩
    have hle : Stage2.NEGATIVE_THRESHOLD ≤ Stage2.POSITIVE_THRESHOLD := by
      norm_num [Stage2.NEGATIVE_THRESHOLD, Stage2.POSITIVE_THRESHOLD]
    exact absurd h1 (not_lt.mpr (le_of_lt (h.trans_le hle)))
  · simp [h2]
  · exact ⟨fun h => absurd h (by decide), fun h => absurd h h2⟩

/-- The Neutral branch of the classification rule, as an equivalence. -/
theorem classify_neu_iff (c : ℚ) :
    Stage2.classify_sentiment c = "Neutral" ↔
      Stage2.NEGATIVE_THRESHOLD ≤ c ∧ c ≤ Stage2.POSITIVE_THRESHOLD := by
  unfold Stage2.classify_sentiment
  split_ifs with h1 h2
  · exact ⟨fun h => absurd h (by decide), fun h => absurd h1 (not_lt.mpr h.2)⟩
  · exact ⟨fun h => absurd h (by decide), fun h => absurd h2 (not_lt.mpr h.1)⟩
  · simp [not_lt.mp h1, not_lt.mp h2]

/-- Claim C2: `classify_sentiment` is a pure total function of the compound
score alone, returning Positive exactly when the score exceeds 0.05, Negative
exactly when it is below -0.05, and Neutral otherwise; in particular both
boundary values classify as Neutral and the nine sample scores classify as
stated. -/
theorem classification_thresholds :
    (∀ c : ℚ,
      (Stage2.classify_sentiment c = "Positive" ↔ Stage2.POSITIVE_THRESHOLD < c) ∧
      (Stage2.classify_sentiment c = "Negative" ↔ c < Stage2.NEGATIVE_THRESHOLD) ∧
      (Stage2.classify_sentiment c = "Neutral" ↔
        Stage2.NEGATIVE_THRESHOLD ≤ c ∧ c ≤ Stage2.POSITIVE_THRESHOLD)) ∧
    Stage2.POSITIVE_THRESHOLD = 5 / 100 ∧
    Stage2.NEGATIVE_THRESHOLD = -(5 / 100) ∧
    Stage2.classify_sentiment (-1) = "Negative" ∧
    Stage2.classify_sentiment (-(6 / 100)) = "Negative" ∧
    Stage2.classify_sentiment (-(5 / 100)) = "Neutral" ∧
    Stage2.classify_sentiment (-(4 / 100)) = "Neutral" ∧
    Stage2.classify_sentiment 0 = "Neutral" ∧
    Stage2.classify_sentiment (4 / 100) = "Neutral" ∧
    Stage2.classify_sentiment (5 / 100) = "Neutral" ∧
    Stage2.classify_sentiment (6 / 100) = "Positive" ∧
    Stage2.classify_sentiment 1 = "Positive" :=
  ⟨fun c => ⟨classify_pos_iff c, classify_neg_iff c, classify_neu_iff c⟩,
    rfl,
    by norm_num [Stage2.NEGATIVE_THRESHOLD],
    (classify_neg_iff _).mpr (by norm_num [Stage2.NEGATIVE_THRESHOLD]),
    (classify_neg_iff _).mpr (by norm_num [Stage2.NEGATIVE_THRESHOLD]),
    (classify_neu_iff _).mpr (by norm_num [Stage2.NEGATIVE_THRESHOLD, Stage2.POSITIVE_THRESHOLD]),
    (classify_neu_iff _).mpr (by norm_num [Stage2.NEGATIVE_THRESHOLD, Stage2.POSITIVE_THRESHOLD]),
    (classify_neu_iff _).mpr (by norm_num [Stage2.NEGATIVE_THRESHOLD, Stage2.POSITIVE_THRESHOLD]),
    (classify_neu_iff _).mpr (by norm_num [Stage2.NEGATIVE_THRESHOLD, Stage2.POSITIVE_THRESHOLD]),
    (classify_neu_iff _).mpr (by norm_num [Stage2.NEGATIVE_THRESHOLD, Stage2.POSITIVE_THRESHOLD]),
    (classify_pos_iff _).mpr (by norm_num [Stage2.POSITIVE_THRESHOLD]),
    (classify_pos_iff _).mpr (by norm_num [Stage2.POSITIVE_THRESHOLD])⟩

/-- Counterexample to claim C4: with a scorer that is admissible for the
documented contract (non-negative sub-scores summing to 1, compound in
[-1, 1]) but returns a compound of 0.05004, the stored label is Positive
while the stored rounded compound_score is 0.05, which the fixed thresholds
classify as Neutral — the stored label is not derivable from the stored
compound_score. -/
theorem stored_label_cex :
    (Stage2.analyzeOne badScorer wLoaded).sentiment = "Positive" ∧
    (Stage2.analyzeOne badScorer wLoaded).compound_score = 1 / 20 ∧
    ¬ Stage2.POSITIVE_THRESHOLD < (Stage2.analyzeOne badScorer wLoaded).compound_score ∧
    Stage2.classify_sentiment ((Stage2.analyzeOne badScorer wLoaded).compound_score) =
      "Neutral" ∧
    (badScorer "great").pos + (badScorer "great").neg + (badScorer "great").neu = 1 ∧
    0 ≤ (badScorer "great").pos ∧ 0 ≤ (badScorer "great").neg ∧
    0 ≤ (badScorer "great").neu ∧
    -1 ≤ (badScorer "great").compound ∧ (badScorer "great").compound ≤ 1 := by
  have hsent : (Stage2.analyzeOne badScorer wLoaded).sentiment =
      Stage2.classify_sentiment (1251 / 25000) := rfl
  have hcs : (Stage2.analyzeOne badScorer wLoaded).compound_score =
      Stage2.round4 (1251 / 25000) := rfl
  have hr : Stage2.round4 (1251 / 25000) = 1 / 20 := by
    norm_num [Stage2.round4, Stage2.roundHalfEven]
  refine ⟨?_, by rw [hcs, hr], ?_, ?_, by norm_num [badScorer], by norm_num [badScorer],
    by norm_num [badScorer], by norm_num [badScorer], by norm_num [badScorer],
    by norm_num [badScorer]⟩
  · rw [hsent]
    exact (classify_pos_iff _).mpr (by norm_num [Stage2.POSITIVE_THRESHOLD])
  · rw [hcs, hr]
    norm_num [Stage2.POSITIVE_THRESHOLD]
  · rw [hcs, hr]
    exact (classify_neu_iff _).mpr
      (by norm_num [Stage2.POSITIVE_THRESHOLD, Stage2.NEGATIVE_THRESHOLD])

/-- Claim C4 as amended: the stored label is computed from the scorer's
unrounded compound alone — no other field of the comment influences it — and
whenever the scorer's compound is already a four-decimal value (so that
rounding for storage is the identity, as with the reference VADER scorer) the
stored label is derivable from the stored compound_score via the fixed
thresholds. -/
theorem stored_label_amended (sia : String → Stage2.Scores) (c : Stage2.LoadedComment)
    (h : Stage2.round4 (sia c.comment_text).compound = (sia c.comment_text).compound) :
    (Stage2.analyzeOne sia c).sentiment =
      Stage2.classify_sentiment ((Stage2.analyzeOne sia c).compound_score) ∧
    (Stage2.analyzeOne sia c).sentiment =
      Stage2.classify_sentiment (sia c.comment_text).compound := by
  have h1 : (Stage2.analyzeOne sia c).sentiment =
      Stage2.classify_sentiment (sia c.comment_text).compound := rfl
  have h2 : (Stage2.analyzeOne sia c).compound_score =
      Stage2.round4 (sia c.comment_text).compound := rfl
  exact ⟨by rw [h1, h2, h], h1⟩

/-- Witness for the amended C4: a scorer whose compound 0.6 is already a
four-decimal value. -/
theorem stored_label_amended_witness :
    (Stage2.analyzeOne goodScorer wLoaded).sentiment =
      Stage2.classify_sentiment ((Stage2.analyzeOne goodScorer wLoaded).compound_score) ∧
    (Stage2.analyzeOne goodScorer wLoaded).sentiment =
      Stage2.classify_sentiment (goodScorer wLoaded.comment_text).compound :=
  stored_label_amended goodScorer wLoaded
    (by norm_num [goodScorer, wLoaded, Stage2.round4, Stage2.roundHalfEven])

/-- Claim C6: summarizing an empty scored set returns early with the explicit
no-comments report: no summary record, hence no computed averages and no
division, and no raised error. -/
theorem empty_input_summary : Stage2.print_summary [] = Except.ok none := rfl

/-- Claim C8: when the required upstream tabular file is absent or unreadable
(the load yields no rows and reports failure), the stage-2 run aborts before
any scoring begins and no output is written — for any scorer and any writer,
even one that would always fail. -/
theorem input_missing_aborts (sia : String → Stage2.Scores)
    (write : List Stage2.AnalyzedComment → Except String Unit) :
    Stage2.run sia write none = Except.ok ⟨0, none, none⟩ := rfl

/-- Claim C9: if the write capability fails, the export operation returns
that failure to the caller unchanged instead of swallowing it, in stage 1 and
in stage 2 alike (for non-empty data, the only case in which a write is
attempted at all). -/
theorem write_failure_propagates (comments : List RawComment)
    (analyzed : List Stage2.AnalyzedComment)
    (wr1 : List RawComment → Except String Unit)
    (wr2 : List Stage2.AnalyzedComment → Except String Unit) (e1 e2 : String)
    (h1 : ¬comments = []) (hw1 : wr1 comments = Except.error e1)
    (h2 : ¬analyzed = []) (hw2 : wr2 analyzed = Except.error e2) :
    Stage1.export_to_csv comments wr1 = Except.error e1 ∧
    Stage2.export_to_csv analyzed wr2 = Except.error e2 := by
  constructor
  · simp [Stage1.export_to_csv, List.isEmpty_iff, h1, hw1]
  · simp [Stage2.export_to_csv, List.isEmpty_iff, h2, hw2]

/-- Witness for C9: concrete non-empty data and writers that fail with a
disk error. -/
theorem write_failure_propagates_witness :
    Stage1.export_to_csv [w1] failWriter1 = Except.error "disk full" ∧
    Stage2.export_to_csv [wAnalyzed] failWriter2 = Except.error "disk full" :=
  write_failure_propagates [w1] [wAnalyzed] failWriter1 failWriter2
    "disk full" "disk full" (by decide) rfl (by simp [wAnalyzed]) rfl

/-- Every classification lands in one of the three summary dictionary
keys. -/
theorem classify_mem (q : ℚ) :
    Stage2.classify_sentiment q = "Positive" ∨
      Stage2.classify_sentiment q = "Negative" ∨
      Stage2.classify_sentiment q = "Neutral" := by
  unfold Stage2.classify_sentiment
  split_ifs <;> simp

/-- The three per-key counts partition the list length when every element
carries one of the three keys. -/
theorem countS_partition (l : List Stage2.AnalyzedComment)
    (h : ∀ c ∈ l, c.sentiment = "Positive" ∨ c.sentiment = "Negative" ∨
      c.sentiment = "Neutral") :
    Stage2.countS "Positive" l + Stage2.countS "Negative" l +
      Stage2.countS "Neutral" l = (l.length : ℤ) := by
  induction l with
  | nil => simp [Stage2.countS]
  | cons c rest ih =>
    have hc := h c (List.mem_cons_self c rest)
    have ih2 := ih (fun x hx => h x (List.mem_cons_of_mem c hx))
    rcases hc with hc | hc | hc <;> simp [Stage2.countS, hc] <;> omega

/-- The tally loop of `print_summary` succeeds whenever every element carries
one of the three keys and its numeric text fields parse, and its count tally
adds the per-key counts to the initial tally. -/
theorem summaryLoop_ok :
    ∀ (l : List Stage2.AnalyzedComment) (cnt lk rp : Stage2.Tally),
    (∀ c ∈ l, c.sentiment = "Positive" ∨ c.sentiment = "Negative" ∨
      c.sentiment = "Neutral") →
    (∀ c ∈ l, ∃ n, Stage2.pyInt c.likes = Except.ok n) →
    (∀ c ∈ l, ∃ n, Stage2.pyInt c.reply_count = Except.ok n) →
    ∃ lk2 rp2, Stage2.summaryLoop l cnt lk rp = Except.ok
      (⟨cnt.pos + Stage2.countS "Positive" l, cnt.neg + Stage2.countS "Negative" l,
        cnt.neu + Stage2.countS "Neutral" l⟩, lk2, rp2) := by
  intro l
  induction l with
  | nil =>
    intro cnt lk rp _ _ _
    exact ⟨lk, rp, by simp [Stage2.summaryLoop, Stage2.countS]⟩
  | cons c rest ih =>
    intro cnt lk rp hs hlik hrep
    have hc := hs c (List.mem_cons_self c rest)
    obtain ⟨lv, elik⟩ := hlik c (List.mem_cons_self c rest)
    obtain ⟨rv, erep⟩ := hrep c (List.mem_cons_self c rest)
    have hs2 := fun x hx => hs x (List.mem_cons_of_mem c hx)
    have hlik2 := fun x hx => hlik x (List.mem_cons_of_mem c hx)
    have hrep2 := fun x hx => hrep x (List.mem_cons_of_mem c hx)
    rcases hc with hc | hc | hc
    · obtain ⟨lk2, rp2, hres⟩ := ih ⟨cnt.pos + 1, cnt.neg, cnt.neu⟩
        ⟨lk.pos + lv, lk.neg, lk.neu⟩ ⟨rp.pos + rv, rp.neg, rp.neu⟩ hs2 hlik2 hrep2
      refine ⟨lk2, rp2, ?_⟩
      have step : Stage2.summaryLoop (c :: rest) cnt lk rp =
          Stage2.summaryLoop rest ⟨cnt.pos + 1, cnt.neg, cnt.neu⟩
            ⟨lk.pos + lv, lk.neg, lk.neu⟩ ⟨rp.pos + rv, rp.neg, rp.neu⟩ := by
        simp only [Stage2.summaryLoop]
        rw [hc, elik, erep]
        rfl
      rw [step, hres]
      simp [Stage2.countS, hc]
      omega
    · obtain ⟨lk2, rp2, hres⟩ := ih ⟨cnt.pos, cnt.neg + 1, cnt.neu⟩
        ⟨lk.pos, lk.neg + lv, lk.neu⟩ ⟨rp.pos, rp.neg + rv, rp.neu⟩ hs2 hlik2 hrep2
      refine ⟨lk2, rp2, ?_⟩
      have step : Stage2.summaryLoop (c :: rest) cnt lk rp =
          Stage2.summaryLoop rest ⟨cnt.pos, cnt.neg + 1, cnt.neu⟩
            ⟨lk.pos, lk.neg + lv, lk.neu⟩ ⟨rp.pos, rp.neg + rv, rp.neu⟩ := by
        simp only [Stage2.summaryLoop]
        rw [hc, elik, erep]
        rfl
      rw [step, hres]
      simp [Stage2.countS, hc]
      omega
    · obtain ⟨lk2, rp2, hres⟩ := ih ⟨cnt.pos, cnt.neg, cnt.neu + 1⟩
        ⟨lk.pos, lk.neg, lk.neu + lv⟩ ⟨rp.pos, rp.neg, rp.neu + rv⟩ hs2 hlik2 hrep2
      refine ⟨lk2, rp2, ?_⟩
      have step : Stage2.summaryLoop (c :: rest) cnt lk rp =
          Stage2.summaryLoop rest ⟨cnt.pos, cnt.neg, cnt.neu + 1⟩
            ⟨lk.pos, lk.neg, lk.neu + lv⟩ ⟨rp.pos, rp.neg, rp.neu + rv⟩ := by
        simp only [Stage2.summaryLoop]
        rw [hc, elik, erep]
        rfl
      rw [step, hres]
      simp [Stage2.countS, hc]
      omega

/-- The generator sums over parsed numeric text fields succeed when every
field parses. -/
theorem sumPyInt_ok (g : Stage2.AnalyzedComment → String) :
    ∀ (l : List Stage2.AnalyzedComment),
    (∀ c ∈ l, ∃ n, Stage2.pyInt (g c) = Except.ok n) →
    ∃ v, Stage2.sumPyInt g l = Except.ok v := by
  intro l
  induction l with
  | nil => intro _; exact ⟨0, rfl⟩
  | cons c rest ih =>
    intro h
    obtain ⟨n, hn⟩ := h c (List.mem_cons_self c rest)
    obtain ⟨v, hv⟩ := ih (fun x hx => h x (List.mem_cons_of_mem c hx))
    refine ⟨n + v, ?_⟩
    simp only [Stage2.sumPyInt]
    rw [hn, hv]
    rfl

/-- Claim C5: for every non-empty scored set whose numeric text fields parse,
`print_summary` succeeds, the three per-category counts partition the total
exactly, and the three per-category percentages sum to 100 (hence to 100
within the 0.1 percent rounding tolerance). -/
theorem aggregation_partition (sia : String → Stage2.Scores)
    (cs : List Stage2.LoadedComment) (hne : ¬cs = [])
    (hlik : ∀ c ∈ cs, ∃ n, Stage2.pyInt c.likes = Except.ok n)
    (hrep : ∀ c ∈ cs, ∃ n, Stage2.pyInt c.reply_count = Except.ok n) :
    ∃ s : Stage2.SentimentSummary,
      Stage2.print_summary (Stage2.analyze_comments sia cs) = Except.ok (some s) ∧
      s.countPos + s.countNeg + s.countNeu = (s.total_comments : ℤ) ∧
      s.total_comments = (Stage2.analyze_comments sia cs).length ∧
      s.pctPos + s.pctNeg + s.pctNeu = 100 ∧
      |s.pctPos + s.pctNeg + s.pctNeu - 100| ≤ 1 / 10 := by
  set l := Stage2.analyze_comments sia cs with hl
  have hs : ∀ c ∈ l, c.sentiment = "Positive" ∨ c.sentiment = "Negative" ∨
      c.sentiment = "Neutral" := by
    intro c hcm
    obtain ⟨o, ho, rfl⟩ := List.mem_map.mp (by simpa [hl, Stage2.analyze_comments] using hcm)
    exact classify_mem ((sia o.comment_text).compound)
  have hlik2 : ∀ c ∈ l, ∃ n, Stage2.pyInt c.likes = Except.ok n := by
    intro c hcm
    obtain ⟨o, ho, rfl⟩ := List.mem_map.mp (by simpa [hl, Stage2.analyze_comments] using hcm)
    exact hlik o ho
  have hrep2 : ∀ c ∈ l, ∃ n, Stage2.pyInt c.reply_count = Except.ok n := by
    intro c hcm
    obtain ⟨o, ho, rfl⟩ := List.mem_map.mp (by simpa [hl, Stage2.analyze_comments] using hcm)
    exact hrep o ho
  have hlne : ¬l = [] := by
    simp only [hl, Stage2.analyze_comments, List.map_eq_nil_iff]
    exact hne
  have hlemp : l.isEmpty = false := by
    rw [Bool.eq_false_iff]
    intro hy
    exact hlne (List.isEmpty_iff.mp hy)
  obtain ⟨lk2, rp2, hloop⟩ := summaryLoop_ok l ⟨0, 0, 0⟩ ⟨0, 0, 0⟩ ⟨0, 0, 0⟩ hs hlik2 hrep2
  obtain ⟨tl, htl⟩ := sumPyInt_ok Stage2.AnalyzedComment.likes l hlik2
  obtain ⟨tr, htr⟩ := sumPyInt_ok Stage2.AnalyzedComment.reply_count l hrep2
  have hpos : 0 < l.length := List.length_pos.mpr hlne
  have hpart := countS_partition l hs
  have hQ : (Stage2.countS "Positive" l : ℚ) + (Stage2.countS "Negative" l : ℚ) +
      (Stage2.countS "Neutral" l : ℚ) = (l.length : ℚ) := by
    exact_mod_cast congrArg (fun z : ℤ => (z : ℚ)) hpart
  have hT : (l.length : ℚ) ≠ 0 := Nat.cast_ne_zero.mpr (Nat.pos_iff_ne_zero.mp hpos)
  have hpcts : Stage2.pct (0 + Stage2.countS "Positive" l) l.length +
      Stage2.pct (0 + Stage2.countS "Negative" l) l.length +
      Stage2.pct (0 + Stage2.countS "Neutral" l) l.length = 100 := by
    unfold Stage2.pct
    rw [if_pos hpos, if_pos hpos, if_pos hpos]
    push_cast
    field_simp
    linarith [hQ]
  refine ⟨⟨l.length, tl, tr,
      (l.map Stage2.AnalyzedComment.compound_score).sum / (l.length : ℚ),
      0 + Stage2.countS "Positive" l,
      0 + Stage2.countS "Negative" l,
      0 + Stage2.countS "Neutral" l,
      Stage2.pct (0 + Stage2.countS "Positive" l) l.length,
      Stage2.pct (0 + Stage2.countS "Negative" l) l.length,
      Stage2.pct (0 + Stage2.countS "Neutral" l) l.length,
      Stage2.avgBy lk2.pos (0 + Stage2.countS "Positive" l),
      Stage2.avgBy lk2.neg (0 + Stage2.countS "Negative" l),
      Stage2.avgBy lk2.neu (0 + Stage2.countS "Neutral" l),
      Stage2.avgBy rp2.pos (0 + Stage2.countS "Positive" l),
      Stage2.avgBy rp2.neg (0 + Stage2.countS "Negative" l),
      Stage2.avgBy rp2.neu (0 + Stage2.countS "Neutral" l)⟩,
    ?_, ?_, ?_, ?_, ?_⟩
  · unfold Stage2.print_summary
    rw [if_neg (by simp [hlemp])]
    rw [hloop, htl, htr]
    rfl
  · show 0 + Stage2.countS "Positive" l + (0 + Stage2.countS "Negative" l) +
      (0 + Stage2.countS "Neutral" l) = (l.length : ℤ)
    simpa using hpart
  · rfl
  · exact hpcts
  · show |Stage2.pct (0 + Stage2.countS "Positive" l) l.length +
      Stage2.pct (0 + Stage2.countS "Negative" l) l.length +
      Stage2.pct (0 + Stage2.countS "Neutral" l) l.length - 100| ≤ 1 / 10
    rw [hpcts]
    norm_num

/-- Witness for C5: one loaded comment with numeric fields that parse. -/
theorem aggregation_partition_witness :
    ∃ s : Stage2.SentimentSummary,
      Stage2.print_summary (Stage2.analyze_comments wSia [wLoaded]) = Except.ok (some s) ∧
      s.countPos + s.countNeg + s.countNeu = (s.total_comments : ℤ) ∧
      s.total_comments = (Stage2.analyze_comments wSia [wLoaded]).length ∧
      s.pctPos + s.pctNeg + s.pctNeu = 100 ∧
      |s.pctPos + s.pctNeg + s.pctNeu - 100| ≤ 1 / 10 :=
  aggregation_partition wSia [wLoaded] (by simp)
    (by intro c hc
        rw [List.mem_singleton] at hc
        subst hc
        exact ⟨10, rfl⟩)
    (by intro c hc
        rw [List.mem_singleton] at hc
        subst hc
        exact ⟨0, rfl⟩)

/-- Claim C10: `analyze_comments` maps each loaded comment to exactly one
analyzed record, preserving the input sequence's length and order, and each
analyzed record carries the source comment's author_name, comment_text,
likes and reply_count values unchanged. -/
theorem analyze_preserves_raw_fields (sia : String → Stage2.Scores)
    (cs : List Stage2.LoadedComment) :
    (Stage2.analyze_comments sia cs).length = cs.length ∧
    (Stage2.analyze_comments sia cs).map Stage2.AnalyzedComment.author_name =
      cs.map Stage2.LoadedComment.author_name ∧
    (Stage2.analyze_comments sia cs).map Stage2.AnalyzedComment.comment_text =
      cs.map Stage2.LoadedComment.comment_text ∧
    (Stage2.analyze_comments sia cs).map Stage2.AnalyzedComment.likes =
      cs.map Stage2.LoadedComment.likes ∧
    (Stage2.analyze_comments sia cs).map Stage2.AnalyzedComment.reply_count =
      cs.map Stage2.LoadedComment.reply_count := by
  refine ⟨by simp [Stage2.analyze_comments], ?_, ?_, ?_, ?_⟩ <;>
    simp [Stage2.analyze_comments, List.map_map] <;>
    exact fun c _ => rfl

end PopBalloon
